import Mathlib

/-!
Verification of the session-management layer of an ECU diagnostic stack:
the UDS protocol adapter (`src/uds/mod.rs`) and the dynamic diagnostic
session orchestrator (`src/dynamic_diag.rs`).

The Rust code is shallowly embedded: the `HashMap<u8, DiagSessionMode>`
registry becomes an association list with HashMap insert/get semantics,
byte values become `Nat`, panicking slice indexing becomes `Option`, and
the negotiation's effectful collaborator calls (server construction,
session-mode probes, channel creation) become an oracle environment of
`Except` outcomes together with an explicit trace of the calls issued.
-/

/-- Session mode descriptor (`DiagSessionMode` in `dynamic_diag`):
numeric id (a `u8`), whether the mode needs tester-present keep-alive
traffic, and a human-readable name. -/
structure DiagSessionMode where
  id : Nat
  tp_require : Bool
  name : String
deriving DecidableEq, Repr

/-- Lookup in the session-mode registry, mirroring `HashMap::get`
on an association-list representation (first match wins; lists built by
`SessionMap.insert` never hold a duplicated key). -/
def SessionMap.get : List (Nat × DiagSessionMode) → Nat → Option DiagSessionMode
  | [], _ => none
  | p :: rest, k => if p.1 = k then some p.2 else SessionMap.get rest k

/-- Key-membership test for the registry, mirroring `HashMap::contains_key`. -/
def SessionMap.contains : List (Nat × DiagSessionMode) → Nat → Bool
  | [], _ => false
  | p :: rest, k => p.1 = k || SessionMap.contains rest k

/-- Upsert, mirroring `HashMap::insert`: an existing entry with the same
key is overwritten in place, otherwise the new entry is appended. -/
def SessionMap.insert : List (Nat × DiagSessionMode) → Nat → DiagSessionMode →
    List (Nat × DiagSessionMode)
  | [], k, v => [(k, v)]
  | p :: rest, k, v =>
      if p.1 = k then (k, v) :: rest else p :: SessionMap.insert rest k v

/-- Standard UDS negative response codes.
Modelled from the spec: the `auto_uds` crate's `UdsError` enumeration is an
external dependency not present under `src/`; the spec describes an NRC as
"either a recognized standard code or an opaque non-standard byte", and the
standard code set is the ISO 14229 NRC table used by that crate. -/
inductive UdsError where
  | GeneralReject
  | ServiceNotSupported
  | SubFunctionNotSupported
  | IncorrectMessageLengthOrInvalidFormat
  | ResponseTooLong
  | BusyRepeatRequest
  | ConditionsNotCorrect
  | RequestSequenceError
  | NoResponseFromSubnetComponent
  | FailurePreventsExecutionOfRequestedAction
  | RequestOutOfRange
  | SecurityAccessDenied
  | InvalidKey
  | ExceedNumberOfAttempts
  | RequiredTimeDelayNotExpired
  | UploadDownloadNotAccepted
  | TransferDataSuspended
  | GeneralProgrammingFailure
  | WrongBlockSequenceCounter
  | RequestCorrectlyReceivedResponsePending
  | SubFunctionNotSupportedInActiveSession
  | ServiceNotSupportedInActiveSession
  | RpmTooHigh
  | RpmTooLow
  | EngineIsRunning
  | EngineIsNotRunning
  | EngineRunTimeTooLow
  | TemperatureTooHigh
  | TemperatureTooLow
  | VehicleSpeedTooHigh
  | VehicleSpeedTooLow
  | ThrottlePedalTooHigh
  | ThrottlePedalTooLow
  | TransmissionRangeNotInNeutral
  | TransmissionRangeNotInGear
  | BrakeSwitchNotClosed
  | ShifterLeverNotInPark
  | TorqueConverterClutchLocked
  | VoltageTooHigh
  | VoltageTooLow
deriving DecidableEq, Repr

/-- Byte value of each standard UDS NRC (the enum discriminants). -/
def UdsError.fromByte : Nat → Option UdsError
  | 0x10 => some .GeneralReject
  | 0x11 => some .ServiceNotSupported
  | 0x12 => some .SubFunctionNotSupported
  | 0x13 => some .IncorrectMessageLengthOrInvalidFormat
  | 0x14 => some .ResponseTooLong
  | 0x21 => some .BusyRepeatRequest
  | 0x22 => some .ConditionsNotCorrect
  | 0x24 => some .RequestSequenceError
  | 0x25 => some .NoResponseFromSubnetComponent
  | 0x26 => some .FailurePreventsExecutionOfRequestedAction
  | 0x31 => some .RequestOutOfRange
  | 0x33 => some .SecurityAccessDenied
  | 0x35 => some .InvalidKey
  | 0x36 => some .ExceedNumberOfAttempts
  | 0x37 => some .RequiredTimeDelayNotExpired
  | 0x70 => some .UploadDownloadNotAccepted
  | 0x71 => some .TransferDataSuspended
  | 0x72 => some .GeneralProgrammingFailure
  | 0x73 => some .WrongBlockSequenceCounter
  | 0x78 => some .RequestCorrectlyReceivedResponsePending
  | 0x7E => some .SubFunctionNotSupportedInActiveSession
  | 0x7F => some .ServiceNotSupportedInActiveSession
  | 0x81 => some .RpmTooHigh
  | 0x82 => some .RpmTooLow
  | 0x83 => some .EngineIsRunning
  | 0x84 => some .EngineIsNotRunning
  | 0x85 => some .EngineRunTimeTooLow
  | 0x86 => some .TemperatureTooHigh
  | 0x87 => some .TemperatureTooLow
  | 0x88 => some .VehicleSpeedTooHigh
  | 0x89 => some .VehicleSpeedTooLow
  | 0x8A => some .ThrottlePedalTooHigh
  | 0x8B => some .ThrottlePedalTooLow
  | 0x8C => some .TransmissionRangeNotInNeutral
  | 0x8D => some .TransmissionRangeNotInGear
  | 0x8F => some .BrakeSwitchNotClosed
  | 0x90 => some .ShifterLeverNotInPark
  | 0x91 => some .TorqueConverterClutchLocked
  | 0x92 => some .VoltageTooHigh
  | 0x93 => some .VoltageTooLow
  | _ => none

/-- `ByteWrapper<T>` of the `auto_uds` crate: a recognized standard value
or an opaque raw byte. -/
inductive ByteWrapper (α : Type) where
  | Standard (value : α)
  | NonStandard (value : Nat)
deriving DecidableEq, Repr

deriving instance DecidableEq for Except

/-- `UdsErrorByte = ByteWrapper<UdsError>`. -/
abbrev UdsErrorByte := ByteWrapper UdsError

/-- `UdsErrorByte::from(b)`: classify a raw byte as a standard NRC when its
value is a discriminant of `UdsError`, otherwise keep it as non-standard. -/
def UdsErrorByte.ofByte (b : Nat) : UdsErrorByte :=
  match UdsError.fromByte b with
  | some e => .Standard e
  | none => .NonStandard b

/-- `EcuNRC::is_ecu_busy` for `UdsErrorByte` (`src/uds/mod.rs` lines 38-44):
true exactly for the standard code `RequestCorrectlyReceivedResponsePending`. -/
def UdsErrorByte.is_ecu_busy : UdsErrorByte → Bool
  | .Standard UdsError.RequestCorrectlyReceivedResponsePending => true
  | _ => false

/-- `EcuNRC::is_wrong_diag_mode` for `UdsErrorByte` (lines 46-52):
true exactly for the standard code `ServiceNotSupportedInActiveSession`. -/
def UdsErrorByte.is_wrong_diag_mode : UdsErrorByte → Bool
  | .Standard UdsError.ServiceNotSupportedInActiveSession => true
  | _ => false

/-- `EcuNRC::is_repeat_request` for `UdsErrorByte` (lines 54-60):
true exactly for the standard code `BusyRepeatRequest`. -/
def UdsErrorByte.is_repeat_request : UdsErrorByte → Bool
  | .Standard UdsError.BusyRepeatRequest => true
  | _ => false

/-- The UDS protocol: its session-mode registry (`struct UDSProtocol`). -/
structure UDSProtocol where
  session_modes : List (Nat × DiagSessionMode)
deriving DecidableEq, Repr

/-- `UDSProtocol::default` (lines 69-81): registry seeded with the four
standard session modes. -/
def UDSProtocol.default : UDSProtocol :=
  { session_modes :=
      [ (0x01, { id := 0x01, tp_require := false, name := "Default" }),
        (0x02, { id := 0x02, tp_require := true, name := "Programming" }),
        (0x03, { id := 0x03, tp_require := true, name := "Extended" }),
        (0x04, { id := 0x04, tp_require := true, name := "SafetySystem" }) ] }

/-- Modelled from the spec: `UDSSessionType::Default.into()` — the byte
value of the default session type lives in the `diagnostic_session_control`
module, which is not under `src/`; the spec fixes the default/normal mode
id as `0x01`. -/
def UDSSessionTypeDefaultByte : Nat := 0x01

/-- `UDSProtocol::get_basic_session_mode` (lines 84-86). -/
def UDSProtocol.get_basic_session_mode (p : UDSProtocol) : Option DiagSessionMode :=
  SessionMap.get p.session_modes UDSSessionTypeDefaultByte

/-- `UDSProtocol::register_session_type` (lines 122-124):
`self.session_modes.insert(session.id, session)`. -/
def UDSProtocol.register_session_type (p : UDSProtocol) (session : DiagSessionMode) :
    UDSProtocol :=
  { session_modes := SessionMap.insert p.session_modes session.id session }

/-- One uppercase hexadecimal digit. -/
def hexDigit (n : Nat) : Char :=
  if n < 10 then Char.ofNat (48 + n) else Char.ofNat (55 + n)

/-- Two-digit uppercase hexadecimal rendering of a byte, as produced by
Rust's `format!("{:02X?}", b)` for a `u8`. -/
def hexByte (b : Nat) : String :=
  String.mk [hexDigit (b / 16 % 16), hexDigit (b % 16)]

/-- `DiagAction` of `dynamic_diag`: the classification of an outgoing
request payload. -/
inductive DiagAction where
  | SetSessionMode (mode : DiagSessionMode)
  | Other (sid : Nat) (data : List Nat)
deriving DecidableEq, Repr

/-- `UDSProtocol::process_req_payload` (lines 92-104). `payload[0]` and,
in the session-control arm, `payload[1]` are panicking slice indexes, so the
embedding returns `none` where the Rust code would panic. -/
def UDSProtocol.process_req_payload (p : UDSProtocol) (payload : List Nat) :
    Option DiagAction :=
  match payload with
  | [] => none
  | b0 :: rest =>
    if b0 = 0x10 then
      match rest with
      | [] => none
      | b1 :: _ =>
        some (DiagAction.SetSessionMode
          ((SessionMap.get p.session_modes b1).getD
            { id := b1, tp_require := true,
              name := "Unknown (0x" ++ hexByte b1 ++ ")" }))
    else
      some (DiagAction.Other b0 rest)

/-- `UDSProtocol::process_ecu_response` (lines 110-116). The Rust code
indexes `r[0]`, and `r[2]` in the negative branch; `none` models the panic
on an out-of-bounds index. Note the source returns `Err((r[2],
UdsErrorByte::from(r[2])))` — the byte at index 2 in both slots. -/
def UDSProtocol.process_ecu_response (r : List Nat) :
    Option (Except (Nat × UdsErrorByte) (List Nat)) :=
  match r with
  | [] => none
  | b0 :: _ =>
    if b0 = 0x7F then
      match r.get? 2 with
      | none => none
      | some b2 => some (.error (b2, UdsErrorByte.ofByte b2))
    else
      some (.ok r)

/-- Modelled from the spec: the crate-level `DiagError` type is declared
outside `src/`. The spec's error taxonomy needs the synthesized
"not supported" value and otherwise treats errors as opaque values surfaced
unchanged, so every other error is an indexed opaque value. -/
inductive DiagError where
  | NotSupported
  | Other (n : Nat)
deriving DecidableEq, Repr

/-- Oracle environment for one run of
`DynamicDiagSession::new_over_iso_tp`: the outcome of each effectful
collaborator call, in program order. `kwpRevert`/`udsRevert` are the
best-effort switches back to normal/default mode, whose results the source
never reads. -/
structure NegotiationEnv where
  channel1 : Except DiagError Unit
  kwpConstruct : Except DiagError Unit
  kwpProbe : Except DiagError Unit
  kwpRevert : Except DiagError Unit
  channel2 : Except DiagError Unit
  udsConstruct : Except DiagError Unit
  udsProbe : Except DiagError Unit
  udsRevert : Except DiagError Unit
deriving Repr

/-- Trace of the collaborator calls `new_over_iso_tp` issues, in order. -/
inductive NegEvent where
  | createIsoTpChannel
  | kwpServerNew
  | kwpSetModeExtended
  | kwpSetModeNormal
  | udsServerNew
  | udsSetExtendedMode
  | udsSetDefaultMode
deriving DecidableEq, Repr

/-- The two-variant discriminated union held by a `DynamicDiagSession`. -/
inductive DynamicSessionType where
  | Kwp
  | Uds
deriving DecidableEq, Repr

/-- The UDS half of `new_over_iso_tp` (`src/dynamic_diag.rs` lines 76-100):
create the second channel (`?` propagates its error, discarding `lastErr`),
construct the UDS server, probe extended mode, best-effort revert to
default. `lastErr` is the error recorded by the KWP attempt; as in the
source, every path through this half either returns successfully or
overwrites it before the final `Err(last_err.unwrap())`. -/
def udsAttempt (env : NegotiationEnv) (_lastErr : DiagError) (evs : List NegEvent) :
    Except DiagError DynamicSessionType × List NegEvent :=
  match env.channel2 with
  | .error e => (.error e, evs ++ [.createIsoTpChannel])
  | .ok _ =>
    match env.udsConstruct with
    | .ok _ =>
      match env.udsProbe with
      | .ok _ =>
        (.ok .Uds,
          evs ++ [.createIsoTpChannel, .udsServerNew, .udsSetExtendedMode,
            .udsSetDefaultMode])
      | .error _ =>
        -- last_err = Some(DiagError::NotSupported); fall through to line 100
        (.error DiagError.NotSupported,
          evs ++ [.createIsoTpChannel, .udsServerNew, .udsSetExtendedMode])
    | .error e =>
      -- last_err = Some(e); fall through to line 100
      (.error e, evs ++ [.createIsoTpChannel, .udsServerNew])

/-- `DynamicDiagSession::new_over_iso_tp` (`src/dynamic_diag.rs` lines
36-101): make a channel (fatal on failure), try KWP2000 (construct, probe
extended diagnostics, best-effort revert to normal), then on any KWP
failure try UDS the same way over a fresh channel. Returns the negotiation
result together with the trace of collaborator calls issued. -/
def DynamicDiagSession.new_over_iso_tp (env : NegotiationEnv) :
    Except DiagError DynamicSessionType × List NegEvent :=
  match env.channel1 with
  | .error e => (.error e, [.createIsoTpChannel])
  | .ok _ =>
    match env.kwpConstruct with
    | .ok _ =>
      match env.kwpProbe with
      | .ok _ =>
        -- revert to Normal is issued but its result is never read
        (.ok .Kwp,
          [.createIsoTpChannel, .kwpServerNew, .kwpSetModeExtended,
            .kwpSetModeNormal])
      | .error _ =>
        udsAttempt env DiagError.NotSupported
          [.createIsoTpChannel, .kwpServerNew, .kwpSetModeExtended]
    | .error e =>
      udsAttempt env e [.createIsoTpChannel, .kwpServerNew]

/-- Modelled from the spec: `kwp2000::ClearDTCRange` is declared outside
`src/`; the spec only names its enumerated "all DTCs" range selector. -/
inductive ClearDTCRange where
  | AllDTCs
deriving DecidableEq, Repr

/-- A request issued to a concrete protocol server by the protocol-agnostic
operations: `kwp2000::clear_dtc(range)` or
`uds::clear_diagnostic_information(group_mask)`. -/
inductive DiagRequest where
  | kwpClearDTC (range : ClearDTCRange)
  | udsClearDiagnosticInformation (group : Nat)
deriving DecidableEq, Repr

/-- `DynamicDiagSession::clear_all_dtcs` (`src/dynamic_diag.rs` lines
158-167), as the sequence of requests the operation issues: it dispatches
on the held variant and performs exactly one clear request, with no
read-back. -/
def DynamicDiagSession.clear_all_dtcs : DynamicSessionType → List DiagRequest
  | .Kwp => [.kwpClearDTC .AllDTCs]
  | .Uds => [.udsClearDiagnosticInformation 0x00FFFFFF]

/-- Concrete negotiation run: both servers fail at construction, with
distinct errors, every other collaborator call succeeding. -/
def envBothConstructFail : NegotiationEnv :=
  { channel1 := .ok (), kwpConstruct := .error (.Other 1), kwpProbe := .ok (),
    kwpRevert := .ok (), channel2 := .ok (), udsConstruct := .error (.Other 2),
    udsProbe := .ok (), udsRevert := .ok () }

/-- Concrete negotiation run: the KWP probe is rejected and the UDS server
then fails at construction. -/
def envUdsConstructFail : NegotiationEnv :=
  { channel1 := .ok (), kwpConstruct := .ok (), kwpProbe := .error (.Other 3),
    kwpRevert := .ok (), channel2 := .ok (), udsConstruct := .error (.Other 4),
    udsProbe := .ok (), udsRevert := .ok () }

/-- Concrete negotiation run: KWP2000 is accepted, while the best-effort
revert to normal mode fails and the second channel would fail. -/
def envKwpAccepts : NegotiationEnv :=
  { channel1 := .ok (), kwpConstruct := .ok (), kwpProbe := .ok (),
    kwpRevert := .error (.Other 7), channel2 := .error (.Other 8),
    udsConstruct := .ok (), udsProbe := .ok (), udsRevert := .ok () }

/-- Concrete negotiation run: the KWP server fails at construction and the
second channel then fails to be created. -/
def envChannel2Fails : NegotiationEnv :=
  { channel1 := .ok (), kwpConstruct := .error (.Other 3), kwpProbe := .ok (),
    kwpRevert := .ok (), channel2 := .error (.Other 9),
    udsConstruct := .ok (), udsProbe := .ok (), udsRevert := .ok () }

/-! ## Helper lemmas about the registry representation -/

theorem SessionMap.get_insert (m : List (Nat × DiagSessionMode)) (k j : Nat)
    (v : DiagSessionMode) :
    SessionMap.get (SessionMap.insert m k v) j =
      if j = k then some v else SessionMap.get m j := by
  induction m with
  | nil =>
    by_cases h : j = k
    · subst h; simp [SessionMap.insert, SessionMap.get]
    · simp [SessionMap.insert, SessionMap.get, h, Ne.symm h]
  | cons p rest ih =>
    by_cases hpk : p.1 = k
    · by_cases h : j = k
      · subst h; simp [SessionMap.insert, SessionMap.get, hpk]
      · simp [SessionMap.insert, SessionMap.get, hpk, h, Ne.symm h]
    · by_cases hpj : p.1 = j
      · have hjk : ¬ j = k := fun he => hpk (hpj.trans he)
        simp [SessionMap.insert, SessionMap.get, hpk, hpj, hjk]
      · simp [SessionMap.insert, SessionMap.get, hpk, hpj, ih]

theorem SessionMap.length_insert (m : List (Nat × DiagSessionMode)) (k : Nat)
    (v : DiagSessionMode) :
    (SessionMap.insert m k v).length =
      if SessionMap.contains m k then m.length else m.length + 1 := by
  induction m with
  | nil => simp [SessionMap.insert, SessionMap.contains]
  | cons p rest ih =>
    by_cases hpk : p.1 = k
    · simp [SessionMap.insert, SessionMap.contains, hpk]
    · simp [SessionMap.insert, SessionMap.contains, hpk, ih]
      split <;> simp

theorem SessionMap.get_register (p : UDSProtocol) (s : DiagSessionMode) (j : Nat) :
    SessionMap.get (p.register_session_type s).session_modes j =
      if j = s.id then some s else SessionMap.get p.session_modes j := by
  show SessionMap.get (SessionMap.insert p.session_modes s.id s) j = _
  exact SessionMap.get_insert _ _ _ _

theorem SessionMap.get_foldl_isSome (ms : List DiagSessionMode) (p : UDSProtocol)
    (k : Nat) (h : (SessionMap.get p.session_modes k).isSome = true) :
    (SessionMap.get (ms.foldl UDSProtocol.register_session_type p).session_modes
      k).isSome = true := by
  induction ms generalizing p with
  | nil => exact h
  | cons m rest ih =>
    rw [List.foldl_cons]
    apply ih
    rw [SessionMap.get_register]
    by_cases hk : k = m.id <;> simp [hk, h]

theorem SessionMap.get_foldl_untouched (ms : List DiagSessionMode) (p : UDSProtocol)
    (k : Nat) (h : ∀ m ∈ ms, m.id ≠ k) :
    SessionMap.get (ms.foldl UDSProtocol.register_session_type p).session_modes k =
      SessionMap.get p.session_modes k := by
  induction ms generalizing p with
  | nil => rfl
  | cons m rest ih =>
    rw [List.foldl_cons, ih _ (fun x hx => h x (List.mem_cons_of_mem _ hx)),
      SessionMap.get_register]
    have hk : ¬ k = m.id := fun he => h m (List.mem_cons_self _ _) he.symm
    simp [hk]

/-! ## Claim theorems -/

/-- Claim C1 (code_bug evaluation): on the failing input
`[0x7F, 0x22, 0x78]`, `process_ecu_response` returns the failure
`(0x78, classified(0x78))` — the NRC byte `0x78` echoed in the service-id
slot — and not the `(0x22, classified(0x78))` that the claim (and the
code's own `[7F, SID, NRC]` comment) prescribe. -/
theorem uds_process_ecu_response_sid_bug :
    UDSProtocol.process_ecu_response [0x7F, 0x22, 0x78] =
      some (.error (0x78,
        ByteWrapper.Standard UdsError.RequestCorrectlyReceivedResponsePending)) ∧
    UDSProtocol.process_ecu_response [0x7F, 0x22, 0x78] ≠
      some (.error (0x22,
        ByteWrapper.Standard UdsError.RequestCorrectlyReceivedResponsePending)) := by
  exact ⟨rfl, by decide⟩

/-- Claim C10: `process_ecu_response` is total for every non-empty byte
sequence whose first byte, when `0x7F`, is followed by at least two more
bytes; the empty sequence and `0x7F`-prefixed sequences of length 1 or 2
hit an out-of-bounds index (modelled as `none`). -/
theorem uds_process_ecu_response_total (b : Nat) (rest : List Nat)
    (h : b = 0x7F → 2 ≤ rest.length) :
    (UDSProtocol.process_ecu_response (b :: rest)).isSome = true ∧
    UDSProtocol.process_ecu_response [] = none ∧
    UDSProtocol.process_ecu_response [0x7F] = none ∧
    UDSProtocol.process_ecu_response [0x7F, b] = none := by
  refine ⟨?_, rfl, rfl, rfl⟩
  by_cases hb : b = 0x7F
  · subst hb
    match rest, h rfl with
    | x :: y :: t, _ => rfl
  · simp [UDSProtocol.process_ecu_response, hb]

/-- Witness for C10: `[0x62, 0xF1, 0x90, 0x01]` satisfies the
precondition and decodes without hitting the error branch. -/
theorem uds_process_ecu_response_total_witness :
    (UDSProtocol.process_ecu_response (0x62 :: [0xF1, 0x90, 0x01])).isSome = true ∧
    UDSProtocol.process_ecu_response [] = none ∧
    UDSProtocol.process_ecu_response [0x7F] = none ∧
    UDSProtocol.process_ecu_response [0x7F, 0x62] = none :=
  uds_process_ecu_response_total 0x62 [0xF1, 0x90, 0x01] (by decide)

/-- Claim C5: the three NRC classification questions are each true for
exactly one byte value — `0x78` (`RequestCorrectlyReceivedResponsePending`)
for `is_ecu_busy`, `0x7F` (`ServiceNotSupportedInActiveSession`) for
`is_wrong_diag_mode`, `0x21` (`BusyRepeatRequest`) for
`is_repeat_request` — and every other byte, standard or not, answers
false to all three. -/
theorem uds_nrc_classification (b : Nat) (hb : b < 256) :
    ((UdsErrorByte.ofByte b).is_ecu_busy = true ↔ b = 0x78) ∧
    ((UdsErrorByte.ofByte b).is_wrong_diag_mode = true ↔ b = 0x7F) ∧
    ((UdsErrorByte.ofByte b).is_repeat_request = true ↔ b = 0x21) := by
  revert b
  set_option maxRecDepth 4096 in decide

/-- Witness for C5: the busy code `0x78` classifies as busy and as
neither of the other two categories. -/
theorem uds_nrc_classification_witness :
    (((UdsErrorByte.ofByte 0x78).is_ecu_busy = true ↔ (0x78 : Nat) = 0x78) ∧
    ((UdsErrorByte.ofByte 0x78).is_wrong_diag_mode = true ↔ (0x78 : Nat) = 0x7F) ∧
    ((UdsErrorByte.ofByte 0x78).is_repeat_request = true ↔ (0x78 : Nat) = 0x21)) :=
  uds_nrc_classification 0x78 (by decide)

/-- Claim C6: `process_req_payload` on a payload of length ≥ 2 returns a
mode-switch action with the registered mode when the service byte is
`0x10` and the mode id is registered, a mode-switch action with a
synthesized `tp_require = true` descriptor naming the hex value of the id
when it is not registered, and a generic-call action otherwise; in
particular `[0x10, 0x03]` yields the registered "Extended" mode on the
default registry, `[0x10, 0x7E]` yields the synthesized descriptor named
"Unknown (0x7E)", and `[0x22, 0xF1, 0x90]` yields a generic call with
service id `0x22` and parameters `[0xF1, 0x90]`. -/
theorem uds_process_req_payload_spec :
    (∀ (p : UDSProtocol) (b1 : Nat) (rest : List Nat) (m : DiagSessionMode),
      SessionMap.get p.session_modes b1 = some m →
      p.process_req_payload (0x10 :: b1 :: rest) =
        some (DiagAction.SetSessionMode m)) ∧
    (∀ (p : UDSProtocol) (b1 : Nat) (rest : List Nat),
      SessionMap.get p.session_modes b1 = none →
      p.process_req_payload (0x10 :: b1 :: rest) =
        some (DiagAction.SetSessionMode
          { id := b1, tp_require := true,
            name := "Unknown (0x" ++ hexByte b1 ++ ")" })) ∧
    (∀ (p : UDSProtocol) (b0 b1 : Nat) (rest : List Nat), b0 ≠ 0x10 →
      p.process_req_payload (b0 :: b1 :: rest) =
        some (DiagAction.Other b0 (b1 :: rest))) ∧
    UDSProtocol.default.process_req_payload [0x10, 0x03] =
      some (DiagAction.SetSessionMode
        { id := 0x03, tp_require := true, name := "Extended" }) ∧
    UDSProtocol.default.process_req_payload [0x10, 0x7E] =
      some (DiagAction.SetSessionMode
        { id := 0x7E, tp_require := true, name := "Unknown (0x7E)" }) ∧
    UDSProtocol.default.process_req_payload [0x22, 0xF1, 0x90] =
      some (DiagAction.Other 0x22 [0xF1, 0x90]) := by
  refine ⟨?_, ?_, ?_, by decide, by decide, by decide⟩
  · intro p b1 rest m h
    simp [UDSProtocol.process_req_payload, h]
  · intro p b1 rest h
    simp [UDSProtocol.process_req_payload, h]
  · intro p b0 b1 rest h
    simp [UDSProtocol.process_req_payload, h]

/-- Witness for C6: the general session-control case applied on the
default registry at the registered id `0x03`. -/
theorem uds_process_req_payload_spec_witness :
    UDSProtocol.default.process_req_payload (0x10 :: 0x03 :: []) =
      some (DiagAction.SetSessionMode
        { id := 0x03, tp_require := true, name := "Extended" }) :=
  uds_process_req_payload_spec.1 UDSProtocol.default 0x03 []
    { id := 0x03, tp_require := true, name := "Extended" } (by decide)

/-- Claim C7: `register_session_type` upserts by id — the registry size is
unchanged when the id was already present and grows by exactly one when it
was not, and afterwards looking up the id yields the registered mode. -/
theorem uds_register_session_type_upsert (p : UDSProtocol) (m : DiagSessionMode) :
    (SessionMap.contains p.session_modes m.id = true →
      (p.register_session_type m).session_modes.length =
        p.session_modes.length) ∧
    (SessionMap.contains p.session_modes m.id = false →
      (p.register_session_type m).session_modes.length =
        p.session_modes.length + 1) ∧
    SessionMap.get (p.register_session_type m).session_modes m.id = some m := by
  refine ⟨?_, ?_, ?_⟩
  · intro h
    show (SessionMap.insert p.session_modes m.id m).length = _
    rw [SessionMap.length_insert]
    simp [h]
  · intro h
    show (SessionMap.insert p.session_modes m.id m).length = _
    rw [SessionMap.length_insert]
    simp [h]
  · rw [SessionMap.get_register]
    simp

/-- Witness for C7: registering the fresh id `0x60` on the default
registry grows it from 4 to 5 entries and makes the id resolvable. -/
theorem uds_register_session_type_upsert_witness :
    (SessionMap.contains UDSProtocol.default.session_modes
        (DiagSessionMode.mk 0x60 true "Custom").id = true →
      (UDSProtocol.default.register_session_type
        (DiagSessionMode.mk 0x60 true "Custom")).session_modes.length =
        UDSProtocol.default.session_modes.length) ∧
    (SessionMap.contains UDSProtocol.default.session_modes
        (DiagSessionMode.mk 0x60 true "Custom").id = false →
      (UDSProtocol.default.register_session_type
        (DiagSessionMode.mk 0x60 true "Custom")).session_modes.length =
        UDSProtocol.default.session_modes.length + 1) ∧
    SessionMap.get (UDSProtocol.default.register_session_type
        (DiagSessionMode.mk 0x60 true "Custom")).session_modes
      (DiagSessionMode.mk 0x60 true "Custom").id =
      some (DiagSessionMode.mk 0x60 true "Custom") :=
  uds_register_session_type_upsert UDSProtocol.default
    (DiagSessionMode.mk 0x60 true "Custom")

/-- Claim C4 counterexample: the claim says every registry reachable from
the default one by `register_session_type` calls holds a default/normal
mode (id `0x01`) with `tp_require = false`; but one registration with id
`0x01` and `tp_require = true` overwrites the seeded entry, after which
the registry's sole id-`0x01` entry requires keep-alive. -/
theorem uds_default_mode_overwrite_cx :
    (UDSProtocol.default.register_session_type
        (DiagSessionMode.mk 0x01 true "Custom")).session_modes =
      [ (0x01, DiagSessionMode.mk 0x01 true "Custom"),
        (0x02, DiagSessionMode.mk 0x02 true "Programming"),
        (0x03, DiagSessionMode.mk 0x03 true "Extended"),
        (0x04, DiagSessionMode.mk 0x04 true "SafetySystem") ] ∧
    UDSProtocol.get_basic_session_mode
        (UDSProtocol.default.register_session_type
          (DiagSessionMode.mk 0x01 true "Custom")) =
      some (DiagSessionMode.mk 0x01 true "Custom") := by
  exact ⟨rfl, rfl⟩

/-- Claim C4 (amended): after any finite sequence of
`register_session_type` calls on the default registry, a session mode with
the default id `0x01` still exists (entries are never deleted); its
keep-alive flag is `false` whenever no registration used id `0x01`, but a
registration with id `0x01` may overwrite the flag. -/
theorem uds_default_mode_persists (ms : List DiagSessionMode) :
    (UDSProtocol.get_basic_session_mode
      (ms.foldl UDSProtocol.register_session_type UDSProtocol.default)).isSome =
        true ∧
    ((∀ m ∈ ms, m.id ≠ 0x01) →
      UDSProtocol.get_basic_session_mode
          (ms.foldl UDSProtocol.register_session_type UDSProtocol.default) =
        some (DiagSessionMode.mk 0x01 false "Default")) := by
  constructor
  · exact SessionMap.get_foldl_isSome ms UDSProtocol.default
      UDSSessionTypeDefaultByte (by decide)
  · intro h
    show SessionMap.get _ UDSSessionTypeDefaultByte = _
    rw [SessionMap.get_foldl_untouched ms UDSProtocol.default
      UDSSessionTypeDefaultByte h]
    rfl

/-- Witness for C4 (amended): registering one mode with id `0x05` keeps
the seeded default mode intact. -/
theorem uds_default_mode_persists_witness :
    (UDSProtocol.get_basic_session_mode
      ([DiagSessionMode.mk 0x05 true "Custom2"].foldl
        UDSProtocol.register_session_type UDSProtocol.default)).isSome = true ∧
    UDSProtocol.get_basic_session_mode
        ([DiagSessionMode.mk 0x05 true "Custom2"].foldl
          UDSProtocol.register_session_type UDSProtocol.default) =
      some (DiagSessionMode.mk 0x01 false "Default") :=
  ⟨(uds_default_mode_persists [DiagSessionMode.mk 0x05 true "Custom2"]).1,
    (uds_default_mode_persists [DiagSessionMode.mk 0x05 true "Custom2"]).2
      (by intro m hm; rw [List.mem_singleton] at hm; subst hm; decide)⟩

/-- Helper: when the second channel is created and the UDS attempt fails
(at construction or at the probe), the UDS half of the negotiation returns
the UDS construction error when construction failed and `NotSupported`
when the probe failed — the error recorded by the KWP attempt is
overwritten in either case. -/
theorem udsAttempt_error (env : NegotiationEnv) (le : DiagError)
    (evs : List NegEvent) (hc2 : env.channel2 = .ok ())
    (huds : ¬(env.udsConstruct = .ok () ∧ env.udsProbe = .ok ())) :
    (udsAttempt env le evs).1 =
      .error (match env.udsConstruct with
        | .error e => e
        | .ok _ => DiagError.NotSupported) := by
  cases huc : env.udsConstruct with
  | error e =>
    unfold udsAttempt
    rw [hc2, huc]
  | ok u =>
    cases u
    cases hup : env.udsProbe with
    | ok u' =>
      cases u'
      exact absurd ⟨huc, hup⟩ huds
    | error e' =>
      unfold udsAttempt
      rw [hc2, huc, hup]

/-- Claim C2 counterexample: with the KWP server failing construction with
error `Other 1` and the UDS server failing construction with error
`Other 2` (so the modern attempt never reaches its probe stage), the
negotiation returns `Other 2` — the modern attempt's construction error —
and not the legacy attempt's error `Other 1` that the claim prescribes for
this case. -/
theorem negotiation_last_error_cx :
    (DynamicDiagSession.new_over_iso_tp envBothConstructFail).1 =
      .error (DiagError.Other 2) ∧
    (DynamicDiagSession.new_over_iso_tp envBothConstructFail).1 ≠
      .error (DiagError.Other 1) := by
  exact ⟨rfl, by decide⟩

/-- Claim C2 (amended): when both protocol attempts fail (each at
construction or at its probe) and both channel creations succeed, the
negotiation returns the last recorded error, which always comes from the
modern (UDS) attempt: its construction error if construction failed, and
`NotSupported` if its probe was reached and failed; the legacy attempt's
recorded error is never the one returned. -/
theorem negotiation_last_error_amended (env : NegotiationEnv)
    (h1 : env.channel1 = .ok ())
    (hkwp : ¬(env.kwpConstruct = .ok () ∧ env.kwpProbe = .ok ()))
    (hc2 : env.channel2 = .ok ())
    (huds : ¬(env.udsConstruct = .ok () ∧ env.udsProbe = .ok ())) :
    (DynamicDiagSession.new_over_iso_tp env).1 =
      .error (match env.udsConstruct with
        | .error e => e
        | .ok _ => DiagError.NotSupported) := by
  cases hkc : env.kwpConstruct with
  | error ek =>
    have key : DynamicDiagSession.new_over_iso_tp env =
        udsAttempt env ek [.createIsoTpChannel, .kwpServerNew] := by
      unfold DynamicDiagSession.new_over_iso_tp
      rw [h1, hkc]
    rw [key]
    exact udsAttempt_error env ek _ hc2 huds
  | ok u =>
    cases u
    cases hkp : env.kwpProbe with
    | ok u' =>
      cases u'
      exact absurd ⟨hkc, hkp⟩ hkwp
    | error ep =>
      have key : DynamicDiagSession.new_over_iso_tp env =
          udsAttempt env DiagError.NotSupported
            [.createIsoTpChannel, .kwpServerNew, .kwpSetModeExtended] := by
        unfold DynamicDiagSession.new_over_iso_tp
        rw [h1, hkc, hkp]
      rw [key]
      exact udsAttempt_error env _ _ hc2 huds

/-- Witness for C2 (amended): KWP probe rejected (`NotSupported`
recorded), UDS construction fails with `Other 4`; the negotiation returns
`Other 4`. -/
theorem negotiation_last_error_amended_witness :
    (DynamicDiagSession.new_over_iso_tp envUdsConstructFail).1 =
      .error (DiagError.Other 4) :=
  negotiation_last_error_amended envUdsConstructFail rfl
    (fun h => nomatch h.2) rfl (fun h => nomatch h.1)

/-- Claim C3: when the KWP2000 server constructs and its
extended-diagnostics probe succeeds, the negotiation commits to KWP — the
trace is exactly channel creation, KWP construction, the extended-mode
probe and the unchecked best-effort revert to normal mode (the outcome of
which the environment leaves arbitrary) — and no UDS construction or
probe is ever issued. -/
theorem negotiation_kwp_success_commits_kwp (env : NegotiationEnv)
    (h1 : env.channel1 = .ok ()) (h2 : env.kwpConstruct = .ok ())
    (h3 : env.kwpProbe = .ok ()) :
    DynamicDiagSession.new_over_iso_tp env =
      (.ok .Kwp,
        [.createIsoTpChannel, .kwpServerNew, .kwpSetModeExtended,
          .kwpSetModeNormal]) ∧
    NegEvent.udsServerNew ∉ (DynamicDiagSession.new_over_iso_tp env).2 ∧
    NegEvent.udsSetExtendedMode ∉ (DynamicDiagSession.new_over_iso_tp env).2 := by
  have key : DynamicDiagSession.new_over_iso_tp env =
      (.ok .Kwp,
        [.createIsoTpChannel, .kwpServerNew, .kwpSetModeExtended,
          .kwpSetModeNormal]) := by
    unfold DynamicDiagSession.new_over_iso_tp
    rw [h1, h2, h3]
  refine ⟨key, ?_, ?_⟩ <;> rw [key] <;> decide

/-- Witness for C3: a run in which KWP is accepted while the best-effort
revert fails (`Other 7`) still commits to KWP and never touches UDS. -/
theorem negotiation_kwp_success_commits_kwp_witness :
    DynamicDiagSession.new_over_iso_tp envKwpAccepts =
      (.ok .Kwp,
        [.createIsoTpChannel, .kwpServerNew, .kwpSetModeExtended,
          .kwpSetModeNormal]) ∧
    NegEvent.udsServerNew ∉ (DynamicDiagSession.new_over_iso_tp envKwpAccepts).2 ∧
    NegEvent.udsSetExtendedMode ∉
      (DynamicDiagSession.new_over_iso_tp envKwpAccepts).2 :=
  negotiation_kwp_success_commits_kwp envKwpAccepts rfl rfl rfl

/-- Claim C9: when the legacy attempt fails (at construction or at its
probe) and creating the second channel for the UDS attempt then fails,
the negotiation returns that channel-creation error unchanged — the UDS
server is never constructed and the error recorded from the legacy
attempt is discarded. -/
theorem negotiation_channel2_error_propagates (env : NegotiationEnv)
    (e2 : DiagError) (h1 : env.channel1 = .ok ())
    (hkwp : ¬(env.kwpConstruct = .ok () ∧ env.kwpProbe = .ok ()))
    (hc2 : env.channel2 = .error e2) :
    (DynamicDiagSession.new_over_iso_tp env).1 = .error e2 ∧
    NegEvent.udsServerNew ∉ (DynamicDiagSession.new_over_iso_tp env).2 := by
  cases hkc : env.kwpConstruct with
  | error ek =>
    have key : DynamicDiagSession.new_over_iso_tp env =
        (.error e2,
          [.createIsoTpChannel, .kwpServerNew, .createIsoTpChannel]) := by
      unfold DynamicDiagSession.new_over_iso_tp udsAttempt
      rw [h1, hkc, hc2]
      rfl
    rw [key]
    refine ⟨rfl, ?_⟩
    show NegEvent.udsServerNew ∉
      [NegEvent.createIsoTpChannel, NegEvent.kwpServerNew,
        NegEvent.createIsoTpChannel]
    decide
  | ok u =>
    cases u
    cases hkp : env.kwpProbe with
    | ok u' =>
      cases u'
      exact absurd ⟨hkc, hkp⟩ hkwp
    | error ep =>
      have key : DynamicDiagSession.new_over_iso_tp env =
          (.error e2,
            [.createIsoTpChannel, .kwpServerNew, .kwpSetModeExtended,
              .createIsoTpChannel]) := by
        unfold DynamicDiagSession.new_over_iso_tp udsAttempt
        rw [h1, hkc, hkp, hc2]
        rfl
      rw [key]
      refine ⟨rfl, ?_⟩
      show NegEvent.udsServerNew ∉
        [NegEvent.createIsoTpChannel, NegEvent.kwpServerNew,
          NegEvent.kwpSetModeExtended, NegEvent.createIsoTpChannel]
      decide

/-- Witness for C9: KWP fails construction with `Other 3`, the second
channel fails with `Other 9`; the negotiation returns `Other 9` and never
constructs the UDS server. -/
theorem negotiation_channel2_error_propagates_witness :
    (DynamicDiagSession.new_over_iso_tp envChannel2Fails).1 =
      .error (DiagError.Other 9) ∧
    NegEvent.udsServerNew ∉
      (DynamicDiagSession.new_over_iso_tp envChannel2Fails).2 :=
  negotiation_channel2_error_propagates envChannel2Fails (DiagError.Other 9)
    rfl (fun h => nomatch h.1) rfl

/-- Claim C8: `clear_all_dtcs` dispatches on the active protocol — UDS
issues a single clear-diagnostic-information request with the reserved
"all groups" mask `0x00FFFFFF`, KWP2000 issues a single clear request
with the enumerated "all DTCs" range selector — and in both cases exactly
one request is issued, with no confirmation read-back. -/
theorem clear_all_dtcs_selectors :
    DynamicDiagSession.clear_all_dtcs .Uds =
      [.udsClearDiagnosticInformation 0x00FFFFFF] ∧
    DynamicDiagSession.clear_all_dtcs .Kwp = [.kwpClearDTC .AllDTCs] ∧
    (DynamicDiagSession.clear_all_dtcs .Uds).length = 1 ∧
    (DynamicDiagSession.clear_all_dtcs .Kwp).length = 1 :=
  ⟨rfl, rfl, rfl, rfl⟩
